import Mathlib

/-!
Verification of the infinite scrolling tile grid renderer of kbm-design.

Shallow embedding of the grid subsystem:
- GridManager.ts (tile to card mapping, tile creation, texture rebinding, stats)
- createTexture.ts (canvas texture generation, cache keyed by title and tags)
- PostProcessShader.ts and InfiniteGridClass (post-process parameters, wraparound
  repositioning of tile groups, renderer and render-target sizing)

Numbers that are IEEE doubles in the source are modelled as rationals; DOM and GPU
objects are modelled by identity tokens (Nat ids) allocated from a counter.
-/

namespace KbmDesign

/-- Card record supplied by the CMS layer (infinite-grid/types.ts CardData, with the
fields used by GridManager.ts and createTexture.ts). Optional fields are Option. -/
structure CardData where
  title : String
  badge : String
  description : String
  tags : List String
  date : String
  image : Option String := none
  client : Option String := none
  shortDescription : Option String := none
  deriving Repr, DecidableEq, Inhabited

/-- Default record returned by getCardDataForTile when the card list has no entry at
the computed index (GridManager.ts, getCardDataForTile fallback object). Its date
field is the wall-clock year, passed in here as a parameter. -/
def defaultCard (year : String) : CardData :=
  { title := "Default Card", badge := "", description := "No data available",
    tags := [], date := year }

/-- GridManager.getCardTextureIndex: (groupIndex * tilesPerGroup + tileIndex) mod
cardCount, with tilesPerGroup = GRID_COLS * GRID_ROWS. For an empty card list the
JS expression evaluates to NaN; that is modelled as none. -/
def getCardTextureIndex (cols rows : Nat) (cards : List CardData)
    (groupIndex tileIndex : Nat) : Option Nat :=
  if cards.length = 0 then none
  else some ((groupIndex * (cols * rows) + tileIndex) % cards.length)

/-- GridManager.getCardDataForTile: index the card list at getCardTextureIndex and
fall back to the default record when no card is found there. -/
def getCardDataForTile (cols rows : Nat) (cards : List CardData)
    (groupIndex tileIndex : Nat) (year : String) : CardData :=
  match getCardTextureIndex cols rows cards groupIndex tileIndex with
  | none => defaultCard year
  | some i => cards.getD i (defaultCard year)

/-- C1: for a card list of length N, N positive, getCardDataForTile returns the card
at index (groupIndex * (GRID_COLS * GRID_ROWS) + tileIndex) mod N; for the empty
list it is total and returns the default record (title "Default Card", empty badge
and tags, description "No data available"). -/
theorem getCardDataForTile_spec (cols rows groupIndex tileIndex : Nat) (year : String)
    (cards : List CardData) :
    (∀ h : 0 < cards.length,
      getCardDataForTile cols rows cards groupIndex tileIndex year
        = cards.get ⟨(groupIndex * (cols * rows) + tileIndex) % cards.length,
            Nat.mod_lt _ h⟩)
    ∧ getCardDataForTile cols rows [] groupIndex tileIndex year
        = { title := "Default Card", badge := "", description := "No data available",
            tags := [], date := year } := by
  constructor
  · intro h
    have hne : cards.length ≠ 0 := Nat.pos_iff_ne_zero.mp h
    have hlt : (groupIndex * (cols * rows) + tileIndex) % cards.length < cards.length :=
      Nat.mod_lt _ h
    simp [getCardDataForTile, getCardTextureIndex, hne, List.getD,
      List.getElem?_eq_getElem hlt, List.get_eq_getElem]
  · simp [getCardDataForTile, getCardTextureIndex, defaultCard]

/-- Closed instance of getCardDataForTile_spec: two cards, groupIndex 1, tileIndex 2,
3 by 3 tiles per group, (1 * 9 + 2) mod 2 = 1. -/
theorem getCardDataForTile_spec_witness :
    getCardDataForTile 3 3 [defaultCard "a", defaultCard "b"] 1 2 "y"
      = defaultCard "b" := by
  have h := (getCardDataForTile_spec 3 3 1 2 "y" [defaultCard "a", defaultCard "b"]).1
    (by decide)
  rw [h]
  rfl

/-! ## Scroll wraparound (InfiniteGridClass.updatePositions) -/

/-- Plain 2-D vector over the rationals. -/
structure Vec2 where
  x : ℚ
  y : ℚ
  deriving Repr, DecidableEq

/-- Per-group state of InfiniteGridClass.tileGroupsData: the fixed base position and
the mutable wrap offset (the z component never changes and is omitted). -/
structure TileGroupData where
  basePos : Vec2
  offset : Vec2
  deriving Repr, DecidableEq

/-- GridManager.initializeTileGroups: 9 groups, r and c each ranging over -1, 0, 1,
with basePos = (GRID_WIDTH * c, GRID_HEIGHT * r) and zero offset. -/
def initializeTileGroups (gridWidth gridHeight : ℚ) : List TileGroupData :=
  ([-1, 0, 1] : List ℚ).flatMap fun r =>
    ([-1, 0, 1] : List ℚ).map fun c =>
      { basePos := ⟨gridWidth * c, gridHeight * r⟩, offset := ⟨0, 0⟩ }

/-- Direction of scroll movement per axis as computed at the top of updatePositions:
-1 when the scroll grew since the last frame, 1 when it shrank, 0 otherwise. -/
def dirOf (cur last : ℚ) : Int :=
  if cur > last then -1 else if cur < last then 1 else 0

/-- One axis of the wrap check in updatePositions. pos is basePos + scroll + offset,
groupOff is half the group span, viewOff half the viewport extent. Moving in the
negative direction with the trailing edge past the positive boundary subtracts the
full three-group span from the offset; symmetrically for the other direction. -/
def wrapOffsetAxis (totalSpan groupOff viewOff : ℚ) (dir : Int)
    (base scroll off : ℚ) : ℚ :=
  let pos := base + scroll + off
  if dir < 0 ∧ pos - groupOff > viewOff then off - totalSpan
  else if dir > 0 ∧ pos + groupOff < -viewOff then off + totalSpan
  else off

/-- Layout constants of InfiniteGridClass used by updatePositions, together with the
viewport extent in world units (the viewport getter is constant while the camera is
fixed, which it is during scrolling). -/
structure GridConsts where
  gridWidth : ℚ
  gridHeight : ℚ
  viewportW : ℚ
  viewportH : ℚ
  deriving Repr, DecidableEq

/-- InfiniteGridClass.updatePositions as a state transformer: recompute the per-axis
direction from current versus last scroll, then apply the wrap check to every group
offset on both axes. The rendered group position is basePos + current + offset. -/
def updatePositions (g : GridConsts) (cur last : Vec2)
    (groups : List TileGroupData) : List TileGroupData :=
  let dx := dirOf cur.x last.x
  let dy := dirOf cur.y last.y
  groups.map fun gd =>
    { gd with offset :=
        ⟨wrapOffsetAxis (g.gridWidth * 3) (g.gridWidth / 2) (g.viewportW / 2) dx
            gd.basePos.x cur.x gd.offset.x,
          wrapOffsetAxis (g.gridHeight * 3) (g.gridHeight / 2) (g.viewportH / 2) dy
            gd.basePos.y cur.y gd.offset.y⟩ }

/-- Projected x position of a group under scroll value s (groupObject.position.x). -/
def posX (s : ℚ) (gd : TileGroupData) : ℚ := gd.basePos.x + s + gd.offset.x

/-- Projected y position of a group under scroll value s (groupObject.position.y). -/
def posY (s : ℚ) (gd : TileGroupData) : ℚ := gd.basePos.y + s + gd.offset.y

/-- A finite sequence of scroll updates: each target becomes scroll.current while the
previous current becomes scroll.last, then updatePositions runs (the order used by
the render loop and the inertia onUpdate callback). -/
def runScrolls (g : GridConsts) (init : List TileGroupData) (targets : List Vec2) :
    Vec2 × List TileGroupData :=
  targets.foldl (fun st s => (s, updatePositions g s st.1 st.2)) (⟨0, 0⟩, init)

/-- Distance bound on each axis maintained by the wrap logic: half viewport plus half
group span, or the three-group span minus that quantity, whichever is larger. -/
def wrapBound (span view : ℚ) : ℚ :=
  max (view / 2 + span / 2) (span * 3 - (view / 2 + span / 2))

lemma half_le_wrapBound (span view : ℚ) : span * 3 / 2 ≤ wrapBound span view := by
  unfold wrapBound
  rcases le_total (span * 3 / 2) (view / 2 + span / 2) with h | h
  · exact le_max_of_le_left h
  · exact le_max_of_le_right (by linarith)

lemma wrapOffsetAxis_bound {span view base cur last off : ℚ}
    (hd : |cur - last| ≤ span * 3)
    (hold : |base + last + off| ≤ wrapBound span view) :
    |base + cur + wrapOffsetAxis (span * 3) (span / 2) (view / 2)
        (dirOf cur last) base cur off| ≤ wrapBound span view := by
  have hB1 : view / 2 + span / 2 ≤ wrapBound span view := le_max_left _ _
  have hB2 : span * 3 - (view / 2 + span / 2) ≤ wrapBound span view := le_max_right _ _
  rw [abs_le] at hold hd ⊢
  rcases lt_trichotomy cur last with hc | hc | hc
  · have hdir : dirOf cur last = 1 := by
      unfold dirOf
      rw [if_neg (not_lt.mpr hc.le), if_pos hc]
    rw [hdir]
    simp only [wrapOffsetAxis]
    have hno : ¬ ((1 : Int) < 0 ∧ base + cur + off - span / 2 > view / 2) := by
      rintro ⟨hcon, -⟩
      norm_num at hcon
    rw [if_neg hno]
    split_ifs with h
    · obtain ⟨-, hpos⟩ := h
      constructor <;> linarith
    · rw [not_and_or] at h
      rcases h with h | h
      · norm_num at h
      · rw [not_lt] at h
        constructor <;> linarith
  · subst hc
    have hdir : dirOf cur cur = 0 := by
      unfold dirOf
      rw [if_neg (lt_irrefl cur), if_neg (lt_irrefl cur)]
    rw [hdir]
    simp only [wrapOffsetAxis]
    have h1 : ¬ ((0 : Int) < 0 ∧ base + cur + off - span / 2 > view / 2) := by
      rintro ⟨hcon, -⟩
      norm_num at hcon
    have h2 : ¬ ((0 : Int) > 0 ∧ base + cur + off + span / 2 < -(view / 2)) := by
      rintro ⟨hcon, -⟩
      norm_num at hcon
    rw [if_neg h1, if_neg h2]
    exact hold
  · have hdir : dirOf cur last = -1 := by
      unfold dirOf
      rw [if_pos hc]
    rw [hdir]
    simp only [wrapOffsetAxis]
    split_ifs with h h'
    · obtain ⟨-, hpos⟩ := h
      constructor <;> linarith
    · obtain ⟨hcon, -⟩ := h'
      norm_num at hcon
    · rw [not_and_or] at h
      rcases h with h | h
      · norm_num at h
      · rw [not_lt] at h
        constructor <;> linarith

lemma updatePositions_bound (g : GridConsts) (cur last : Vec2)
    (groups : List TileGroupData)
    (hdx : |cur.x - last.x| ≤ g.gridWidth * 3)
    (hdy : |cur.y - last.y| ≤ g.gridHeight * 3)
    (hinv : ∀ gd ∈ groups,
      |posX last.x gd| ≤ wrapBound g.gridWidth g.viewportW ∧
      |posY last.y gd| ≤ wrapBound g.gridHeight g.viewportH) :
    ∀ gd ∈ updatePositions g cur last groups,
      |posX cur.x gd| ≤ wrapBound g.gridWidth g.viewportW ∧
      |posY cur.y gd| ≤ wrapBound g.gridHeight g.viewportH := by
  intro gd hgd
  rw [updatePositions, List.mem_map] at hgd
  obtain ⟨gd0, hmem, rfl⟩ := hgd
  obtain ⟨h1, h2⟩ := hinv gd0 hmem
  constructor
  · exact wrapOffsetAxis_bound hdx h1
  · exact wrapOffsetAxis_bound hdy h2

/-- Each consecutive scroll delta is bounded by Dx on the x axis and Dy on the y
axis, starting from the given previous scroll value. -/
def boundedSteps (Dx Dy : ℚ) : Vec2 → List Vec2 → Prop
  | _, [] => True
  | prev, s :: rest => |s.x - prev.x| ≤ Dx ∧ |s.y - prev.y| ≤ Dy ∧
      boundedSteps Dx Dy s rest

lemma runScrolls_go_bound (g : GridConsts) (targets : List Vec2) :
    ∀ (cur : Vec2) (groups : List TileGroupData),
      boundedSteps (g.gridWidth * 3) (g.gridHeight * 3) cur targets →
      (∀ gd ∈ groups,
        |posX cur.x gd| ≤ wrapBound g.gridWidth g.viewportW ∧
        |posY cur.y gd| ≤ wrapBound g.gridHeight g.viewportH) →
      ∀ gd ∈ (targets.foldl (fun st s => (s, updatePositions g s st.1 st.2))
          (cur, groups)).2,
        |posX (targets.foldl (fun st s => (s, updatePositions g s st.1 st.2))
          (cur, groups)).1.x gd| ≤ wrapBound g.gridWidth g.viewportW ∧
        |posY (targets.foldl (fun st s => (s, updatePositions g s st.1 st.2))
          (cur, groups)).1.y gd| ≤ wrapBound g.gridHeight g.viewportH := by
  induction targets with
  | nil => intro cur groups _ hinv; simpa using hinv
  | cons s rest ih =>
    intro cur groups hsteps hinv
    obtain ⟨hdx, hdy, hrest⟩ := hsteps
    exact ih s (updatePositions g s cur groups) hrest
      (updatePositions_bound g s cur groups hdx hdy hinv)

lemma initializeTileGroups_bound (g : GridConsts)
    (hW : 0 ≤ g.gridWidth) (hH : 0 ≤ g.gridHeight) :
    ∀ gd ∈ initializeTileGroups g.gridWidth g.gridHeight,
      |posX 0 gd| ≤ wrapBound g.gridWidth g.viewportW ∧
      |posY 0 gd| ≤ wrapBound g.gridHeight g.viewportH := by
  have key : ∀ (span view c : ℚ), 0 ≤ span → |c| ≤ 1 →
      |span * c + 0 + 0| ≤ wrapBound span view := by
    intro span view c hspan hc
    have h1 : |span * c| ≤ span := by
      rw [abs_mul, abs_of_nonneg hspan]
      calc span * |c| ≤ span * 1 := by
            exact mul_le_mul_of_nonneg_left hc hspan
        _ = span := mul_one span
    have h2 := half_le_wrapBound span view
    rw [add_zero, add_zero]
    linarith
  intro gd hgd
  simp only [initializeTileGroups, List.mem_flatMap, List.mem_map] at hgd
  obtain ⟨r, hr, c, hc, rfl⟩ := hgd
  have hr1 : |r| ≤ 1 := by
    simp only [List.mem_cons, List.mem_singleton] at hr
    rcases hr with rfl | rfl | rfl | h
    · rw [abs_neg, abs_one]
    · simp
    · rw [abs_one]
    · simp at h
  have hc1 : |c| ≤ 1 := by
    simp only [List.mem_cons, List.mem_singleton] at hc
    rcases hc with rfl | rfl | rfl | h
    · rw [abs_neg, abs_one]
    · simp
    · rw [abs_one]
    · simp at h
  exact ⟨key _ _ _ hW hc1, key _ _ _ hH hr1⟩

/-- C2 amended: the wraparound invariant holds provided every per-frame scroll delta
is bounded by one full meta-grid span (three group widths) per axis. Starting from
the initial 3 by 3 layout, after any such sequence of scroll updates every group's
projected position basePos + scroll + offset stays within wrapBound of the origin on
each axis, which is within one meta-grid span of the viewport. The original claim
without the delta bound is refuted by updatePositions_large_delta_counterexample. -/
theorem wraparound_invariant (g : GridConsts)
    (hW : 0 ≤ g.gridWidth) (hH : 0 ≤ g.gridHeight)
    (targets : List Vec2)
    (hsteps : boundedSteps (g.gridWidth * 3) (g.gridHeight * 3) ⟨0, 0⟩ targets) :
    ∀ gd ∈ (runScrolls g (initializeTileGroups g.gridWidth g.gridHeight) targets).2,
      |posX (runScrolls g (initializeTileGroups g.gridWidth g.gridHeight)
          targets).1.x gd| ≤ wrapBound g.gridWidth g.viewportW ∧
      |posY (runScrolls g (initializeTileGroups g.gridWidth g.gridHeight)
          targets).1.y gd| ≤ wrapBound g.gridHeight g.viewportH := by
  exact runScrolls_go_bound g targets ⟨0, 0⟩ _ hsteps
    (initializeTileGroups_bound g hW hH)

/-- Closed instance of wraparound_invariant: default tile geometry (group span 27/2),
a 20-unit viewport, one moderate scroll update, evaluated at the centre group. -/
theorem wraparound_invariant_witness :
    |posX (10 : ℚ) ⟨⟨0, 0⟩, ⟨0, 0⟩⟩| ≤ wrapBound (27/2) 20
    ∧ |posY (0 : ℚ) ⟨⟨0, 0⟩, ⟨0, 0⟩⟩| ≤ wrapBound (27/2) 20 := by
  have h := wraparound_invariant ⟨27/2, 27/2, 20, 20⟩ (by norm_num) (by norm_num)
    [⟨10, 0⟩]
    ⟨by rw [abs_le]; constructor <;> norm_num,
     by rw [abs_le]; constructor <;> norm_num, trivial⟩
  exact h ⟨⟨0, 0⟩, ⟨0, 0⟩⟩ (by norm_num [runScrolls, updatePositions,
    initializeTileGroups, wrapOffsetAxis, dirOf, List.foldl])

/-- C2 counterexample to the claim as stated: with the default tile geometry (group
span 27/2) and a 20-unit viewport, a single scroll update with delta 100 followed by
a resting frame (delta 0) leaves the centre group projected at x = 119/2, far beyond
one tile-group-span (27/2) of the viewport half-extent (10), and the resting frame
does not move it back: the group is stranded outside renderable range. -/
theorem updatePositions_large_delta_counterexample :
    ∃ gd ∈ (runScrolls ⟨27/2, 27/2, 20, 20⟩
        (initializeTileGroups (27/2) (27/2)) [⟨100, 0⟩, ⟨100, 0⟩]).2,
      posX (100 : ℚ) gd = 119 / 2 ∧ ¬ (|posX (100 : ℚ) gd| ≤ 20 / 2 + 27 / 2) := by
  refine ⟨⟨⟨0, 0⟩, ⟨-(81/2), 0⟩⟩, ?_, ?_, ?_⟩
  · norm_num [runScrolls, updatePositions, initializeTileGroups, wrapOffsetAxis,
      dirOf, List.foldl]
  · norm_num [posX]
  · rw [not_le]
    have : posX (100 : ℚ) ⟨⟨0, 0⟩, ⟨-(81/2), 0⟩⟩ = 119 / 2 := by norm_num [posX]
    rw [this, abs_of_pos (by norm_num)]
    norm_num

/-! ## Texture cache (createTexture.ts) -/

/-- Cache key used by generateForegroundTexture: the title, a dash, and the tag list
joined with dashes. -/
def cacheKey (d : CardData) : String :=
  d.title ++ "-" ++ String.intercalate "-" d.tags

/-- Module level textureCache of createTexture.ts, plus an allocator for fresh
texture objects; a texture object is identified by the Nat id it received when it
was created, so object identity is id equality. -/
structure TexCache where
  entries : List (String × Nat)
  nextId : Nat
  deriving Repr, DecidableEq

/-- Lookup combining textureCache.has and textureCache.get. -/
def TexCache.lookup (c : TexCache) (k : String) : Option Nat :=
  (c.entries.find? (fun p => p.1 == k)).map Prod.snd

/-- Fresh texture object creation (new THREE.CanvasTexture). -/
def allocTexture (c : TexCache) : Nat × TexCache :=
  (c.nextId, { c with nextId := c.nextId + 1 })

/-- Cache behaviour of generateForegroundTexture: return the cached texture when the
cache key is present, otherwise create a texture, store it under the key (Map.set on
an absent key appends) and return it. -/
def generateForegroundTextureC (d : CardData) (c : TexCache) : Nat × TexCache :=
  match c.lookup (cacheKey d) with
  | some t => (t, c)
  | none =>
      let a := allocTexture c
      (a.1, { a.2 with entries := a.2.entries ++ [(cacheKey d, a.1)] })

lemma lookup_after_insert (c : TexCache) (k : String) (t : Nat) (n : Nat)
    (h : c.lookup k = none) :
    TexCache.lookup { entries := c.entries ++ [(k, t)], nextId := n } k = some t := by
  unfold TexCache.lookup at h ⊢
  rw [Option.map_eq_none'] at h
  rw [List.find?_append, h]
  simp

lemma lookup_after_insert_ne (c : TexCache) (k k' : String) (t : Nat) (n : Nat)
    (hne : k ≠ k') (h : c.lookup k' = none) :
    TexCache.lookup { entries := c.entries ++ [(k, t)], nextId := n } k' = none := by
  unfold TexCache.lookup at h ⊢
  rw [Option.map_eq_none'] at h
  rw [List.find?_append, h]
  simp [hne]

/-- C3 amended: two generateForegroundTexture calls for records with identical title
and identical tag list return the same cached texture object and the second call
does not touch the cache; and two records whose derived cache keys differ (rather
than whose raw title or tag set differ, see the collision counterexample) get
distinct cache entries with distinct texture objects. -/
theorem textureCache_identity (d1 d2 : CardData) (c : TexCache) :
    (d1.title = d2.title → d1.tags = d2.tags →
      generateForegroundTextureC d2 (generateForegroundTextureC d1 c).2
        = generateForegroundTextureC d1 c)
    ∧ (cacheKey d1 ≠ cacheKey d2 →
      c.lookup (cacheKey d1) = none → c.lookup (cacheKey d2) = none →
      (generateForegroundTextureC d2 (generateForegroundTextureC d1 c).2).1
        ≠ (generateForegroundTextureC d1 c).1) := by
  constructor
  · intro hti hta
    have hk : cacheKey d2 = cacheKey d1 := by
      unfold cacheKey
      rw [hti, hta]
    unfold generateForegroundTextureC
    rw [hk]
    cases hlook : c.lookup (cacheKey d1) with
    | some t => simp [hlook]
    | none =>
        simp only [hlook, allocTexture]
        have hins : TexCache.lookup
            { entries := c.entries ++ [(cacheKey d1, c.nextId)],
              nextId := c.nextId + 1 } (cacheKey d1) = some c.nextId :=
          lookup_after_insert c (cacheKey d1) c.nextId (c.nextId + 1) hlook
        rw [hins]
  · intro hk h1 h2
    unfold generateForegroundTextureC
    rw [h1]
    simp only [allocTexture]
    have h2' : TexCache.lookup
        { entries := c.entries ++ [(cacheKey d1, c.nextId)],
          nextId := c.nextId + 1 } (cacheKey d2) = none :=
      lookup_after_insert_ne c (cacheKey d1) (cacheKey d2) c.nextId (c.nextId + 1)
        hk h2
    rw [h2']
    simp

/-- Record whose cache key is "q-", used to exercise the distinct-key branch. -/
def qCard : CardData :=
  { title := "q", badge := "", description := "", tags := [], date := "" }

/-- Closed instance of textureCache_identity: both conjuncts applied at concrete
records and the empty cache. -/
theorem textureCache_identity_witness :
    (generateForegroundTextureC (defaultCard "y")
        (generateForegroundTextureC (defaultCard "y") ⟨[], 0⟩).2
      = generateForegroundTextureC (defaultCard "y") ⟨[], 0⟩)
    ∧ (generateForegroundTextureC qCard
        (generateForegroundTextureC (defaultCard "y") ⟨[], 0⟩).2).1
      ≠ (generateForegroundTextureC (defaultCard "y") ⟨[], 0⟩).1 := by
  constructor
  · exact (textureCache_identity (defaultCard "y") (defaultCard "y") ⟨[], 0⟩).1
      rfl rfl
  · exact (textureCache_identity (defaultCard "y") qCard ⟨[], 0⟩).2
      (by decide) (by decide) (by decide)

/-- Record with title "a" and tags ["b", "c"]; its cache key is "a-b-c". -/
def collisionCardA : CardData :=
  { title := "a", badge := "", description := "", tags := ["b", "c"], date := "" }

/-- Record with title "a-b" and tags ["c"]; its cache key is also "a-b-c". -/
def collisionCardB : CardData :=
  { title := "a-b", badge := "", description := "", tags := ["c"], date := "" }

/-- C3 counterexample to the claim as stated: collisionCardA and collisionCardB
differ in both title and tag list, yet their cache keys collide on "a-b-c", so the
second generation call returns the very same cached texture object instead of
producing a distinct cache entry. -/
theorem textureCache_collision_counterexample :
    collisionCardA.title ≠ collisionCardB.title
    ∧ collisionCardA.tags ≠ collisionCardB.tags
    ∧ (generateForegroundTextureC collisionCardB
        (generateForegroundTextureC collisionCardA ⟨[], 0⟩).2).1
      = (generateForegroundTextureC collisionCardA ⟨[], 0⟩).1 := by
  refine ⟨by decide, by decide, ?_⟩
  rfl

/-! ## Canvas drawing sequences (createTexture.ts) -/

/-- Canvas edge length used by all generated textures. -/
def cardWidth : ℚ := 2048

/-- Canvas height, equal to the width (square 1:1 cards). -/
def cardHeight : ℚ := 2048

/-- Inner padding of the card layout. -/
def padding : ℚ := 120

/-- Drawing commands issued against the offscreen 2-D context, with the numeric
arguments the generators pass (fill styles are recorded for fillRect so the two
dark-fill paths stay distinguishable). -/
inductive CanvasOp
  | strokeRectOp (x y w h : ℚ)
  | fillTextOp (text : String) (x y : ℚ)
  | drawImageOp (x y w h : ℚ)
  | tagPill (x y w h r : ℚ)
  | fillRectOp (style : String) (x y w h : ℚ)
  deriving Repr, DecidableEq

/-- Outcome of the awaited asynchronous image load: the natural size on onload, or
failure on onerror. -/
inductive ImageLoad
  | loaded (naturalWidth naturalHeight : ℚ)
  | failed
  deriving Repr, DecidableEq

/-- Truncation loop for the short description: while the measured width exceeds the
budget and more than 3 characters remain, drop the last 4 characters and append an
ellipsis (each round shortens the string by one character, so the loop ends). -/
def truncateDesc (measure : String → ℚ) (maxW : ℚ) (s : String) : String :=
  if h : measure s > maxW ∧ s.length > 3 then
    truncateDesc measure maxW (String.mk (s.data.take (s.length - 4)) ++ "...")
  else s
termination_by s.length
decreasing_by
  obtain ⟨-, hlen⟩ := h
  have h1 : (String.mk (s.data.take (s.length - 4)) ++ "...").length
      = s.length - 4 + 3 := by
    rw [String.length_append]
    have h2 : (String.mk (s.data.take (s.length - 4))).length = s.length - 4 := by
      show (s.data.take (s.length - 4)).length = s.length - 4
      rw [List.length_take]
      have hd : s.length = s.data.length := rfl
      omega
    rw [h2]
    rfl
  omega

/-- Ops for the client name in the top left (uppercased, drawn when present). -/
def clientOps (data : CardData) : List CanvasOp :=
  match data.client with
  | some cl => [CanvasOp.fillTextOp cl.toUpper padding 120]
  | none => []

/-- Ops for the short description in the top right (uppercased and truncated against
half the canvas width, drawn when present). -/
def descOps (measure : String → String → ℚ) (data : CardData) : List CanvasOp :=
  match data.shortDescription with
  | some sd =>
      [CanvasOp.fillTextOp
        (truncateDesc (measure "48px Arial, sans-serif") (cardWidth / 2 - padding)
          sd.toUpper)
        (cardWidth - padding) 120]
  | none => []

/-- Vertical start of the image area: padding plus the 120 top row plus 40. -/
def topElementsMaxY : ℚ := padding + 120 + 40

/-- Vertical space reserved under the image for tags and date. -/
def bottomReservedSpace : ℚ := 400

/-- Ops for the awaited image: on load, scale to fit the available box preserving
aspect ratio (never upscaled) and centre both axes; on error, draw the visible
"Image Error" placeholder text and resolve. -/
def imageOps (img : ImageLoad) : List CanvasOp :=
  let availableImageHeight := cardHeight - topElementsMaxY - bottomReservedSpace
  let availableImageWidth := cardWidth - padding * 2
  match img with
  | ImageLoad.loaded w h =>
      let aspect := w / h
      let dims :=
        if w > availableImageWidth ∨ h > availableImageHeight then
          if availableImageWidth / aspect ≤ availableImageHeight then
            (availableImageWidth, availableImageWidth / aspect)
          else
            (availableImageHeight * aspect, availableImageHeight)
        else (w, h)
      [CanvasOp.drawImageOp (padding + (availableImageWidth - dims.1) / 2)
        (topElementsMaxY + (availableImageHeight - dims.2) / 2) dims.1 dims.2]
  | ImageLoad.failed =>
      [CanvasOp.fillTextOp "Image Error" (cardWidth / 2) (cardHeight / 2 - 200)]

/-- Baseline of the tag pill row. -/
def tagsY : ℚ := cardHeight - padding - 64 - 32

/-- Tag pill loop: each tag is drawn as a rounded pill sized to its measured text
plus fixed padding, advancing left to right with a fixed gap. -/
def tagOpsGo (measure : String → String → ℚ) (x : ℚ) : List String → List CanvasOp
  | [] => []
  | tag :: rest =>
      let textToDraw := "#" ++ tag.toUpper
      let tagLabelWidth := measure "64px Helvetica, Arial, sans-serif" textToDraw
      let tagShapeWidth := tagLabelWidth + 60
      let tagShapeHeight : ℚ := 64 + 32
      CanvasOp.tagPill x tagsY tagShapeWidth tagShapeHeight (tagShapeHeight / 2)
        :: CanvasOp.fillTextOp textToDraw (x + tagShapeWidth / 2)
            (tagsY + tagShapeHeight / 2)
        :: tagOpsGo measure (x + tagShapeWidth + 40) rest

/-- Full drawing sequence of generateForegroundTexture: border, client name, short
description, awaited image (or placeholder), tag pills, date. The only rejection
path is 2-D context creation failure in createCanvasContext. -/
def generateForegroundTextureOps (ctxOk : Bool) (measure : String → String → ℚ)
    (data : CardData) (img : ImageLoad) : Except String (List CanvasOp) :=
  if ctxOk = false then Except.error "Failed to get 2D context for canvas"
  else Except.ok
    ([CanvasOp.strokeRectOp 1 1 (cardWidth - 2) (cardHeight - 2)]
      ++ clientOps data
      ++ descOps measure data
      ++ imageOps img
      ++ tagOpsGo measure padding data.tags
      ++ [CanvasOp.fillTextOp data.date (cardWidth - padding) (cardHeight - padding)])

/-- Full drawing sequence of generateBackgroundTexture: the image scaled by 2 and
centred plus the dark overlay, or on load failure a flat translucent dark fill; the
only rejection path is context creation failure. -/
def generateBackgroundTextureOps (ctxOk : Bool) (img : ImageLoad) :
    Except String (List CanvasOp) :=
  if ctxOk = false then Except.error "Failed to get 2D context for canvas"
  else Except.ok
    (match img with
      | ImageLoad.loaded w h =>
          let bgImgWidth := w * 2
          let bgImgHeight := h * 2
          [CanvasOp.drawImageOp ((cardWidth - bgImgWidth) / 2)
              ((cardHeight - bgImgHeight) / 2) bgImgWidth bgImgHeight,
            CanvasOp.fillRectOp "rgba(0,0,0,0.4)" 0 0 cardWidth cardHeight]
      | ImageLoad.failed =>
          [CanvasOp.fillRectOp "rgba(0,0,0,0.5)" 0 0 cardWidth cardHeight])

/-- Per-card loop of GridManager.generateTexturesForCardData: generate the
foreground then the background sequence for every card and join the results. -/
def texturePairsLoop (measure : String → String → ℚ)
    (imgOf : CardData → ImageLoad) :
    List CardData → Except String (List (List CanvasOp × List CanvasOp))
  | [] => Except.ok []
  | card :: rest => do
      let fg ← generateForegroundTextureOps true measure card (imgOf card)
      let bg ← generateBackgroundTextureOps true (imgOf card)
      let tail ← texturePairsLoop measure imgOf rest
      pure ((fg, bg) :: tail)

/-- GridManager.generateTexturesForCardData over the drawing model: empty card data
short-circuits to an empty texture list, otherwise all pairs are generated. -/
def generateTexturesForCardDataOps (measure : String → String → ℚ)
    (imgOf : CardData → ImageLoad) (cards : List CardData) :
    Except String (List (List CanvasOp × List CanvasOp)) :=
  if cards.length = 0 then Except.ok [] else texturePairsLoop measure imgOf cards

lemma texturePairsLoop_ok (measure : String → String → ℚ)
    (imgOf : CardData → ImageLoad) (cards : List CardData) :
    ∃ res, texturePairsLoop measure imgOf cards = Except.ok res := by
  induction cards with
  | nil => exact ⟨[], rfl⟩
  | cons card rest ih =>
      obtain ⟨res, hres⟩ := ih
      refine ⟨((generateForegroundTextureOps true measure card
          (imgOf card)).toOption.getD [],
        (generateBackgroundTextureOps true (imgOf card)).toOption.getD []) :: res, ?_⟩
      simp only [texturePairsLoop, generateForegroundTextureOps,
        generateBackgroundTextureOps, hres]
      rfl

/-- C4: an image URL that fails to load still lets generateForegroundTexture resolve
with the visible "Image Error" placeholder drawn on the canvas, lets
generateBackgroundTexture resolve with the flat translucent dark fill, and for any
card list and any assignment of load failures the overall texture generation
operation still resolves rather than rejecting. -/
theorem image_failure_recovered (measure : String → String → ℚ) (data : CardData)
    (cards : List CardData) (imgOf : CardData → ImageLoad) :
    (∃ ops, generateForegroundTextureOps true measure data ImageLoad.failed
        = Except.ok ops
      ∧ CanvasOp.fillTextOp "Image Error" (cardWidth / 2) (cardHeight / 2 - 200)
          ∈ ops)
    ∧ generateBackgroundTextureOps true ImageLoad.failed
        = Except.ok [CanvasOp.fillRectOp "rgba(0,0,0,0.5)" 0 0 cardWidth cardHeight]
    ∧ (∃ res, generateTexturesForCardDataOps measure imgOf cards = Except.ok res) := by
  refine ⟨⟨_, rfl, ?_⟩, rfl, ?_⟩
  · simp [imageOps, List.mem_append]
  · unfold generateTexturesForCardDataOps
    split_ifs with h
    · exact ⟨[], rfl⟩
    · exact texturePairsLoop_ok measure imgOf cards

/-! ## Post-process sampling (modelled from the spec) -/

/-- Modelled from the spec: GLSL clamp(x, 0.0, 1.0) on one coordinate. The fragment
program itself lives in infinite-grid/shaders.ts (postProcessFragmentShader), which
is missing from the available sources; only its importer PostProcessShader.ts is
present, so the sampling step is modelled from the spec text of section 4.2. -/
def clampUnit (x : ℚ) : ℚ := max 0 (min 1 x)

/-- Modelled from the spec: the displaced sample coordinate of the post-process
fragment program (shaders.ts, not among the available sources). The pixel UV is
centred, displaced radially in proportion to the distortion vector (intensity times
aspect on x, intensity on y) and the squared distance from centre, and the displaced
coordinate is clamped into the unit square before the texture fetch. -/
def displacedSampleUV (dx dy u v : ℚ) : ℚ × ℚ :=
  let cx := u - 1/2
  let cy := v - 1/2
  let r2 := cx ^ 2 + cy ^ 2
  (clampUnit (u + dx * cx * r2), clampUnit (v + dy * cy * r2))

/-- C5: for every output pixel coordinate and every distortion intensity, including
extreme values and edge-of-screen coordinates, the displaced sample coordinate lies
in the unit square before the input texture is fetched, so no sample is ever taken
outside the input texture's bounds. -/
theorem postprocess_uv_clamped (dx dy u v : ℚ) :
    0 ≤ (displacedSampleUV dx dy u v).1 ∧ (displacedSampleUV dx dy u v).1 ≤ 1
    ∧ 0 ≤ (displacedSampleUV dx dy u v).2 ∧ (displacedSampleUV dx dy u v).2 ≤ 1 := by
  unfold displacedSampleUV clampUnit
  refine ⟨le_max_left _ _, ?_, le_max_left _ _, ?_⟩ <;>
    exact max_le (by norm_num) (min_le_left _ _)

/-! ## Initialization failure surface (InfiniteGridClass, GridManager) -/

/-- Constructor guard of InfiniteGridClass: a missing container element throws
"Container element is required"; otherwise construction proceeds. -/
def infiniteGridConstruct (containerPresent : Bool) : Except String Unit :=
  if containerPresent = false then Except.error "Container element is required"
  else Except.ok ()

/-- GridManager.generateTexturesForCardData including its renderer guard: a missing
renderer throws, empty card data returns early with an empty texture list, and
otherwise every pair is generated. -/
def generateTexturesForCardDataE (rendererPresent : Bool)
    (measure : String → String → ℚ) (imgOf : CardData → ImageLoad)
    (cards : List CardData) :
    Except String (List (List CanvasOp × List CanvasOp)) :=
  if rendererPresent = false then Except.error "Renderer not initialized"
  else generateTexturesForCardDataOps measure imgOf cards

/-- C8 amended: constructing the grid with a missing container element throws
"Container element is required" to the caller, but initializing an otherwise healthy
grid with no card data does not throw: texture generation resolves with an empty
texture list (see generateTexturesForCardData_empty_counterexample), and tiles are
later filled with fallback textures. -/
theorem init_failure_surface (measure : String → String → ℚ)
    (imgOf : CardData → ImageLoad) :
    infiniteGridConstruct false = Except.error "Container element is required"
    ∧ infiniteGridConstruct true = Except.ok ()
    ∧ generateTexturesForCardDataE true measure imgOf [] = Except.ok [] := by
  exact ⟨rfl, rfl, rfl⟩

/-- C8 counterexample to the claim as stated: with the renderer present, a concrete
initialization with no card data completes with Except.ok (an empty texture list)
instead of surfacing a thrown error. -/
theorem generateTexturesForCardData_empty_counterexample :
    generateTexturesForCardDataE true (fun _ _ => 0) (fun _ => ImageLoad.failed) []
      = Except.ok [] := by
  rfl

/-! ## Post-process parameter initialization (PostProcessShader.ts) -/

/-- Optional parameter bag of the CustomPostProcessShader constructor and of the
postProcessParams option of InfiniteGridClass. -/
structure PostProcessParamsOpt where
  distortionIntensity : Option ℚ := none
  vignetteOffset : Option ℚ := none
  vignetteDarkness : Option ℚ := none
  deriving Repr, DecidableEq

/-- Observable state of a CustomPostProcessShader: the three internal parameters and
the uniform values of its material (distortion is a vec2). -/
structure ShaderState where
  distortionIntensity : ℚ
  vignetteOffset : ℚ
  vignetteDarkness : ℚ
  uniformDistortion : ℚ × ℚ
  uniformVignetteOffset : ℚ
  uniformVignetteDarkness : ℚ
  deriving Repr, DecidableEq

/-- CustomPostProcessShader.updateUniforms: distortion becomes (intensity times the
window aspect ratio, intensity), and the vignette uniforms copy the parameters. -/
def updateUniforms (aspect : ℚ) (s : ShaderState) : ShaderState :=
  { s with
    uniformDistortion := (s.distortionIntensity * aspect, s.distortionIntensity),
    uniformVignetteOffset := s.vignetteOffset,
    uniformVignetteDarkness := s.vignetteDarkness }

/-- CustomPostProcessShader constructor: parameters resolve against the defaults
-0.05, 0.9, 1.2; the material is created with distortion (0, 0) and the resolved
vignette values, and updateUniforms runs immediately at the end. -/
def newCustomPostProcessShader (aspect : ℚ) (initialParams : PostProcessParamsOpt) :
    ShaderState :=
  let d := initialParams.distortionIntensity.getD (-(1/20))
  let vo := initialParams.vignetteOffset.getD (9/10)
  let vd := initialParams.vignetteDarkness.getD (6/5)
  updateUniforms aspect
    { distortionIntensity := d, vignetteOffset := vo, vignetteDarkness := vd,
      uniformDistortion := (0, 0), uniformVignetteOffset := vo,
      uniformVignetteDarkness := vd }

/-- Object-spread override: base field values overridden by any present field of p,
yielding a bag in which every field is present. -/
def overrideParams (baseD baseVO baseVD : ℚ) (p : PostProcessParamsOpt) :
    PostProcessParamsOpt :=
  { distortionIntensity := some (p.distortionIntensity.getD baseD),
    vignetteOffset := some (p.vignetteOffset.getD baseVO),
    vignetteDarkness := some (p.vignetteDarkness.getD baseVD) }

/-- Options merge in the InfiniteGridClass constructor: postProcessParams defaults
are distortionIntensity 0.0, vignetteOffset 1.2 (outside screen bounds to disable
the vignette initially), vignetteDarkness 1.5, overridden by user fields. -/
def mergedOptionsPostProcessParams (user : PostProcessParamsOpt) :
    PostProcessParamsOpt :=
  overrideParams 0 (6/5) (3/2) user

/-- setupPostProcessing: the literals -0.05, 0.9, 1.2 are spread-overridden by
options.postProcessParams, which after the constructor merge always carries all
three fields, and the shader is constructed from the result. -/
def setupPostProcessingShader (aspect : ℚ) (user : PostProcessParamsOpt) :
    ShaderState :=
  newCustomPostProcessShader aspect
    (overrideParams (-(1/20)) (9/10) (6/5) (mergedOptionsPostProcessParams user))

/-- Property setter for distortionIntensity: assign, then updateUniforms. -/
def setDistortionIntensity (aspect v : ℚ) (s : ShaderState) : ShaderState :=
  updateUniforms aspect { s with distortionIntensity := v }

/-- Property setter for vignetteOffset: assign, then updateUniforms. -/
def setVignetteOffset (aspect v : ℚ) (s : ShaderState) : ShaderState :=
  updateUniforms aspect { s with vignetteOffset := v }

/-- Property setter for vignetteDarkness: assign, then updateUniforms. -/
def setVignetteDarkness (aspect v : ℚ) (s : ShaderState) : ShaderState :=
  updateUniforms aspect { s with vignetteDarkness := v }

/-- The assignment block in InfiniteGridClass.init immediately after
setupPostProcessing: set -0.05, 0.9, 1.2 through the setters and force a final
updateUniforms. -/
def initPostProcessState (aspect : ℚ) (user : PostProcessParamsOpt) : ShaderState :=
  updateUniforms aspect
    (setVignetteDarkness aspect (6/5)
      (setVignetteOffset aspect (9/10)
        (setDistortionIntensity aspect (-(1/20)) (setupPostProcessingShader aspect user))))

/-- C9 amended: a standalone CustomPostProcessShader built with empty initialParams
already has the resting parameters -0.05, 0.9, 1.2 at construction time and pushes
them to the uniforms immediately; but the shader the grid constructs through
setupPostProcessing with default options is built with the neutral grid defaults
0.0, 1.2, 1.5 instead (the options spread overrides the resting literals), and only
the assignments that init performs right afterwards bring it to the resting state. -/
theorem postprocess_initial_state (aspect : ℚ) :
    (newCustomPostProcessShader aspect {}
      = { distortionIntensity := -(1/20), vignetteOffset := 9/10,
          vignetteDarkness := 6/5,
          uniformDistortion := (-(1/20) * aspect, -(1/20)),
          uniformVignetteOffset := 9/10, uniformVignetteDarkness := 6/5 })
    ∧ (setupPostProcessingShader aspect {}
      = { distortionIntensity := 0, vignetteOffset := 6/5, vignetteDarkness := 3/2,
          uniformDistortion := (0 * aspect, 0),
          uniformVignetteOffset := 6/5, uniformVignetteDarkness := 3/2 })
    ∧ (initPostProcessState aspect {}
      = { distortionIntensity := -(1/20), vignetteOffset := 9/10,
          vignetteDarkness := 6/5,
          uniformDistortion := (-(1/20) * aspect, -(1/20)),
          uniformVignetteOffset := 9/10, uniformVignetteDarkness := 6/5 }) := by
  refine ⟨rfl, rfl, rfl⟩

/-- C9 counterexample to the claim as stated: at aspect ratio 1 the shader built by
setupPostProcessing with default grid options does not carry the resting visual at
construction time: its distortion is 0 rather than -0.05 and its vignette offset is
1.2 rather than 0.9. -/
theorem setupPostProcessing_initial_counterexample :
    (setupPostProcessingShader 1 {}).distortionIntensity ≠ -(1/20)
    ∧ (setupPostProcessingShader 1 {}).vignetteOffset ≠ 9/10
    ∧ (setupPostProcessingShader 1 {}).vignetteDarkness ≠ 6/5 := by
  refine ⟨by norm_num [setupPostProcessingShader, newCustomPostProcessShader,
    overrideParams, mergedOptionsPostProcessParams, updateUniforms], ?_, ?_⟩
  · norm_num [setupPostProcessingShader, newCustomPostProcessShader,
      overrideParams, mergedOptionsPostProcessParams, updateUniforms]
  · norm_num [setupPostProcessingShader, newCustomPostProcessShader,
      overrideParams, mergedOptionsPostProcessParams, updateUniforms]

/-! ## Renderer and render target sizing (InfiniteGridClass) -/

/-- setupRenderer: the renderer pixel ratio is capped, min(devicePixelRatio, 2). -/
def rendererPixelRatio (devicePixelRatio : ℚ) : ℚ := min devicePixelRatio 2

/-- Pixel width of the display drawing buffer: container width times the capped
pixel ratio set by setPixelRatio. -/
def rendererBufferWidth (containerWidth devicePixelRatio : ℚ) : ℚ :=
  containerWidth * rendererPixelRatio devicePixelRatio

/-- setupPostProcessing: dpr is window.devicePixelRatio with 1 substituted for the
falsy 0, and the scene render target is allocated at container size times that
uncapped dpr. -/
def sceneRenderTargetWidth (containerWidth devicePixelRatio : ℚ) : ℚ :=
  containerWidth * (if devicePixelRatio = 0 then 1 else devicePixelRatio)

/-- C10: the renderer pixel ratio is capped at min(devicePixelRatio, 2) while the
intermediate scene render target is allocated at container dimensions times the
uncapped devicePixelRatio, so on any display with devicePixelRatio above 2 the
render target and the display framebuffer differ in pixel size (on both axes). -/
theorem renderTarget_size_mismatch (w h dpr : ℚ)
    (hw : 0 < w) (hh : 0 < h) (hd : 2 < dpr) :
    rendererPixelRatio dpr = 2
    ∧ sceneRenderTargetWidth w dpr ≠ rendererBufferWidth w dpr
    ∧ sceneRenderTargetWidth h dpr ≠ rendererBufferWidth h dpr := by
  have h0 : ¬ (dpr = 0) := by intro h; rw [h] at hd; norm_num at hd
  have hmin : min dpr 2 = 2 := min_eq_right (le_of_lt hd)
  refine ⟨hmin, ?_, ?_⟩
  · unfold sceneRenderTargetWidth rendererBufferWidth rendererPixelRatio
    rw [if_neg h0, hmin]
    intro hcon
    have := mul_left_cancel₀ (ne_of_gt hw) hcon
    rw [this] at hd
    exact lt_irrefl 2 hd
  · unfold sceneRenderTargetWidth rendererBufferWidth rendererPixelRatio
    rw [if_neg h0, hmin]
    intro hcon
    have := mul_left_cancel₀ (ne_of_gt hh) hcon
    rw [this] at hd
    exact lt_irrefl 2 hd

/-- Closed instance of renderTarget_size_mismatch: a 100 by 50 container at
devicePixelRatio 3. -/
theorem renderTarget_size_mismatch_witness :
    rendererPixelRatio 3 = 2
    ∧ sceneRenderTargetWidth 100 3 ≠ rendererBufferWidth 100 3
    ∧ sceneRenderTargetWidth 50 3 ≠ rendererBufferWidth 50 3 := by
  exact renderTarget_size_mismatch 100 50 3 (by norm_num) (by norm_num) (by norm_num)

/-! ## Decimal tile keys: Nat.repr is an injective, dash-free encoding -/

lemma toDigitsCore_eq_digits :
    ∀ (f n : Nat) (acc : List Char), n ≠ 0 → n < f →
      Nat.toDigitsCore 10 f n acc
        = ((Nat.digits 10 n).map Nat.digitChar).reverse ++ acc := by
  intro f
  induction f with
  | zero => intro n acc hn hf; omega
  | succ f ih =>
      intro n acc hn hf
      rw [Nat.digits_def' (by norm_num : (1 : Nat) < 10) (Nat.pos_of_ne_zero hn)]
      rw [List.map_cons, List.reverse_cons]
      show (if n / 10 = 0 then Nat.digitChar (n % 10) :: acc
        else Nat.toDigitsCore 10 f (n / 10) (Nat.digitChar (n % 10) :: acc)) = _
      by_cases hdiv : n / 10 = 0
      · rw [if_pos hdiv, hdiv]
        simp
      · rw [if_neg hdiv]
        have hlt : n / 10 < f := by
          have h1 : n / 10 < n := Nat.div_lt_self (Nat.pos_of_ne_zero hn) (by norm_num)
          omega
        rw [ih (n / 10) (Nat.digitChar (n % 10) :: acc) hdiv hlt]
        simp

lemma toDigits_eq_digits (n : Nat) (hn : n ≠ 0) :
    Nat.toDigits 10 n = ((Nat.digits 10 n).map Nat.digitChar).reverse := by
  show Nat.toDigitsCore 10 (n + 1) n [] = _
  rw [toDigitsCore_eq_digits (n + 1) n [] hn (Nat.lt_succ_self n)]
  simp

lemma digitChar_inj_lt : ∀ a < 10, ∀ b < 10, Nat.digitChar a = Nat.digitChar b → a = b := by
  decide

lemma digitChar_ne_dash : ∀ a < 10, Nat.digitChar a ≠ Char.ofNat 45 := by
  decide

lemma map_digitChar_inj :
    ∀ (l1 l2 : List Nat), (∀ x ∈ l1, x < 10) → (∀ x ∈ l2, x < 10) →
      l1.map Nat.digitChar = l2.map Nat.digitChar → l1 = l2 := by
  intro l1
  induction l1 with
  | nil =>
      intro l2 _ _ h
      cases l2 with
      | nil => rfl
      | cons y ys => simp at h
  | cons x xs ih =>
      intro l2 h1 h2 h
      cases l2 with
      | nil => simp at h
      | cons y ys =>
          rw [List.map_cons, List.map_cons] at h
          obtain ⟨hxy, hxs⟩ := List.cons.inj h
          have hx := h1 x (List.mem_cons_self x xs)
          have hy := h2 y (List.mem_cons_self y ys)
          rw [digitChar_inj_lt x hx y hy hxy,
            ih ys (fun z hz => h1 z (List.mem_cons_of_mem x hz))
              (fun z hz => h2 z (List.mem_cons_of_mem y hz)) hxs]

lemma toDigits_ten_inj (m n : Nat) (h : Nat.toDigits 10 m = Nat.toDigits 10 n) :
    m = n := by
  by_cases hm : m = 0 <;> by_cases hn : n = 0
  · omega
  · exfalso
    rw [hm, toDigits_eq_digits n hn] at h
    have h' : (Nat.digits 10 n).map Nat.digitChar = ['0'] := by
      have := congrArg List.reverse h
      simpa using this.symm
    have hdig : Nat.digits 10 n = [0] := by
      cases hd : Nat.digits 10 n with
      | nil => rw [hd] at h'; simp at h'
      | cons d ds =>
          rw [hd, List.map_cons] at h'
          obtain ⟨hd0, hds⟩ := List.cons.inj h'
          have hdlt : d < 10 := Nat.digits_lt_base (by norm_num) (hd ▸ List.mem_cons_self d ds)
          have : d = 0 := digitChar_inj_lt d hdlt 0 (by norm_num) hd0
          rw [this]
          have : ds = [] := List.map_eq_nil_iff.mp hds
          rw [this]
    have := Nat.ofDigits_digits 10 n
    rw [hdig] at this
    simp [Nat.ofDigits] at this
    omega
  · exfalso
    rw [hn, toDigits_eq_digits m hm] at h
    have h' : (Nat.digits 10 m).map Nat.digitChar = ['0'] := by
      have := congrArg List.reverse h
      simpa using this
    have hdig : Nat.digits 10 m = [0] := by
      cases hd : Nat.digits 10 m with
      | nil => rw [hd] at h'; simp at h'
      | cons d ds =>
          rw [hd, List.map_cons] at h'
          obtain ⟨hd0, hds⟩ := List.cons.inj h'
          have hdlt : d < 10 := Nat.digits_lt_base (by norm_num) (hd ▸ List.mem_cons_self d ds)
          have : d = 0 := digitChar_inj_lt d hdlt 0 (by norm_num) hd0
          rw [this]
          have : ds = [] := List.map_eq_nil_iff.mp hds
          rw [this]
    have := Nat.ofDigits_digits 10 m
    rw [hdig] at this
    simp [Nat.ofDigits] at this
    omega
  · rw [toDigits_eq_digits m hm, toDigits_eq_digits n hn] at h
    have h' := List.reverse_injective h
    exact Nat.ofDigits_digits 10 m ▸ Nat.ofDigits_digits 10 n ▸
      congrArg (Nat.ofDigits 10)
        (map_digitChar_inj _ _ (fun x hx => Nat.digits_lt_base (by norm_num) hx)
          (fun x hx => Nat.digits_lt_base (by norm_num) hx) h')

lemma repr_data_eq (n : Nat) : (Nat.repr n).data = Nat.toDigits 10 n := rfl

lemma repr_char_ne_dash (n : Nat) : ∀ c ∈ (Nat.repr n).data, c ≠ Char.ofNat 45 := by
  intro c hc
  rw [repr_data_eq] at hc
  by_cases hn : n = 0
  · rw [hn] at hc
    have h0 : Nat.toDigits 10 0 = ['0'] := rfl
    rw [h0] at hc
    have : c = '0' := by simpa using hc
    rw [this]
    decide
  · rw [toDigits_eq_digits n hn, List.mem_reverse, List.mem_map] at hc
    obtain ⟨d, hd, rfl⟩ := hc
    exact digitChar_ne_dash d (Nat.digits_lt_base (by norm_num) hd)

lemma append_sep_inj {sep : Char} :
    ∀ (a1 a2 b1 b2 : List Char), sep ∉ a1 → sep ∉ a2 →
      a1 ++ sep :: b1 = a2 ++ sep :: b2 → a1 = a2 ∧ b1 = b2 := by
  intro a1
  induction a1 with
  | nil =>
      intro a2 b1 b2 _ h2 h
      cases a2 with
      | nil => simpa using h
      | cons y ys =>
          exfalso
          rw [List.nil_append, List.cons_append] at h
          obtain ⟨hy, -⟩ := List.cons.inj h
          exact h2 (hy ▸ List.mem_cons_self y ys)
  | cons x xs ih =>
      intro a2 b1 b2 h1 h2 h
      cases a2 with
      | nil =>
          exfalso
          rw [List.cons_append, List.nil_append] at h
          obtain ⟨hy, -⟩ := List.cons.inj h
          exact h1 (hy ▸ List.mem_cons_self x xs)
      | cons y ys =>
          rw [List.cons_append, List.cons_append] at h
          obtain ⟨hxy, htail⟩ := List.cons.inj h
          have hx1 : sep ∉ xs := fun hmem => h1 (List.mem_cons_of_mem x hmem)
          have hy2 : sep ∉ ys := fun hmem => h2 (List.mem_cons_of_mem y hmem)
          obtain ⟨ha, hb⟩ := ih ys b1 b2 hx1 hy2 htail
          exact ⟨by rw [hxy, ha], hb⟩

/-- GridManager.getTileKey: the template string groupIndex, dash, tileIndex. -/
def tileKey (groupIndex tileIndex : Nat) : String :=
  Nat.repr groupIndex ++ "-" ++ Nat.repr tileIndex

lemma tileKey_data (g t : Nat) :
    (tileKey g t).data = (Nat.repr g).data ++ Char.ofNat 45 :: (Nat.repr t).data := by
  show ((Nat.repr g ++ "-") ++ Nat.repr t).data = _
  rw [String.data_append, String.data_append]
  simp

lemma tileKey_inj {g1 t1 g2 t2 : Nat} (h : tileKey g1 t1 = tileKey g2 t2) :
    g1 = g2 ∧ t1 = t2 := by
  have hdata := congrArg String.data h
  rw [tileKey_data, tileKey_data] at hdata
  obtain ⟨hg, ht⟩ := append_sep_inj _ _ _ _
    (fun hmem => repr_char_ne_dash g1 _ hmem rfl)
    (fun hmem => repr_char_ne_dash g2 _ hmem rfl) hdata
  constructor
  · exact toDigits_ten_inj g1 g2 (by rw [← repr_data_eq, ← repr_data_eq, hg])
  · exact toDigits_ten_inj t1 t2 (by rw [← repr_data_eq, ← repr_data_eq, ht])

/-! ## JS Map model over string keys -/

/-- Ordered association list model of a JS Map: set replaces in place when the key
is present and appends otherwise. -/
def mapSet {α : Type} : List (String × α) → String → α → List (String × α)
  | [], k, v => [(k, v)]
  | (k', v') :: rest, k, v =>
      if k' = k then (k, v) :: rest else (k', v') :: mapSet rest k v

/-- Map.get: the entry stored under the key, if any. -/
def mapGet {α : Type} (m : List (String × α)) (k : String) : Option α :=
  (m.find? (fun p => p.1 == k)).map Prod.snd

/-- In-place mutation of the value stored under a key: the JS code mutates the
object found by Map.get, leaving the map structure itself untouched. -/
def mapAdjust {α : Type} (m : List (String × α)) (k : String) (f : α → α) :
    List (String × α) :=
  m.map fun p => if p.1 = k then (p.1, f p.2) else p

lemma mapGet_set_self {α : Type} (m : List (String × α)) (k : String) (v : α) :
    mapGet (mapSet m k v) k = some v := by
  induction m with
  | nil => simp [mapSet, mapGet, List.find?]
  | cons p rest ih =>
      by_cases hp : p.1 = k
      · simp [mapSet, hp, mapGet, List.find?]
      · simp only [mapSet, if_neg hp]
        rw [mapGet, List.find?]
        have : (p.1 == k) = false := beq_eq_false_iff_ne.mpr hp
        rw [this]
        exact ih

lemma mapGet_set_ne {α : Type} (m : List (String × α)) (k k' : String) (v : α)
    (h : k ≠ k') : mapGet (mapSet m k v) k' = mapGet m k' := by
  induction m with
  | nil =>
      simp only [mapSet, mapGet, List.find?]
      have : (k == k') = false := beq_eq_false_iff_ne.mpr h
      rw [this]
  | cons p rest ih =>
      by_cases hp : p.1 = k
      · simp only [mapSet, if_pos hp, mapGet, List.find?]
        have h1 : (k == k') = false := beq_eq_false_iff_ne.mpr h
        have h2 : (p.1 == k') = false := beq_eq_false_iff_ne.mpr (hp ▸ h)
        rw [h1, h2]
      · simp only [mapSet, if_neg hp, mapGet, List.find?]
        cases hx : (p.1 == k') with
        | true => rfl
        | false => exact ih

lemma mapGet_set_isSome_mono {α : Type} (m : List (String × α)) (k k' : String)
    (v : α) (h : (mapGet m k').isSome) : (mapGet (mapSet m k v) k').isSome := by
  by_cases hk : k = k'
  · rw [hk, mapGet_set_self]; rfl
  · rw [mapGet_set_ne m k k' v hk]; exact h

lemma mapGet_adjust_self {α : Type} (m : List (String × α)) (k : String)
    (f : α → α) : mapGet (mapAdjust m k f) k = (mapGet m k).map f := by
  induction m with
  | nil => rfl
  | cons p rest ih =>
      by_cases hp : p.1 = k
      · simp only [mapAdjust, List.map_cons, if_pos hp, mapGet, List.find?]
        have : (p.1 == k) = true := beq_iff_eq.mpr hp
        rw [this]
        rfl
      · simp only [mapAdjust, List.map_cons, if_neg hp, mapGet, List.find?]
        have : (p.1 == k) = false := beq_eq_false_iff_ne.mpr hp
        rw [this]
        exact ih

lemma mapGet_adjust_ne {α : Type} (m : List (String × α)) (k k' : String)
    (f : α → α) (h : k ≠ k') : mapGet (mapAdjust m k f) k' = mapGet m k' := by
  induction m with
  | nil => rfl
  | cons p rest ih =>
      by_cases hp : p.1 = k
      · simp only [mapAdjust, List.map_cons, if_pos hp, mapGet, List.find?]
        have : (p.1 == k') = false := beq_eq_false_iff_ne.mpr (by rw [hp]; exact h)
        rw [this]
        exact ih
      · simp only [mapAdjust, List.map_cons, if_neg hp, mapGet, List.find?]
        cases hx : (p.1 == k') with
        | true => rfl
        | false => exact ih

lemma mapAdjust_proj {α β : Type} (m : List (String × α)) (k : String) (f : α → α)
    (g : α → β) (hf : ∀ x, g (f x) = g x) :
    (mapAdjust m k f).map (fun p => (p.1, g p.2)) = m.map fun p => (p.1, g p.2) := by
  induction m with
  | nil => rfl
  | cons p rest ih =>
      by_cases hp : p.1 = k
      · simp only [mapAdjust, List.map_cons, if_pos hp] at ih ⊢
        rw [hf]
        exact congrArg _ ih
      · simp only [mapAdjust, List.map_cons, if_neg hp] at ih ⊢
        exact congrArg _ ih

/-! ## Tile iteration order (GridManager.createTiles, updateTileTextures) -/

/-- Tile indices of one group in loop order: row outer, col inner, index
row * GRID_COLS + col. -/
def tilesOfGroup (cols rows : Nat) : List Nat :=
  (List.range rows).flatMap fun row => (List.range cols).map fun col => row * cols + col

lemma tilesOfGroup_eq_range (cols rows : Nat) :
    tilesOfGroup cols rows = List.range (rows * cols) := by
  induction rows with
  | zero => simp [tilesOfGroup]
  | succ r ih =>
      rw [tilesOfGroup, List.range_succ, List.flatMap_append]
      rw [tilesOfGroup] at ih
      rw [ih, Nat.succ_mul, List.range_add]
      simp [Nat.add_comm]

/-- Group and tile index pairs in loop order: group outer, tile inner. -/
def groupTilePairs (numGroups cols rows : Nat) : List (Nat × Nat) :=
  (List.range numGroups).flatMap fun g => (tilesOfGroup cols rows).map fun t => (g, t)

lemma groupTilePairs_eq_product (numGroups cols rows : Nat) :
    groupTilePairs numGroups cols rows
      = List.range numGroups ×ˢ tilesOfGroup cols rows := rfl

lemma groupTilePairs_nodup (numGroups cols rows : Nat) :
    (groupTilePairs numGroups cols rows).Nodup := by
  rw [groupTilePairs_eq_product]
  refine List.Nodup.product (List.nodup_range _) ?_
  rw [tilesOfGroup_eq_range]
  exact List.nodup_range _

lemma mem_groupTilePairs {numGroups cols rows g t : Nat} :
    (g, t) ∈ groupTilePairs numGroups cols rows ↔ g < numGroups ∧ t < rows * cols := by
  rw [groupTilePairs_eq_product, List.mem_product]
  simp [tilesOfGroup_eq_range, List.mem_range]

/-! ## Grid state and tile management (GridManager.ts) -/

/-- CardTexturePair: one foreground and one background texture object per card. -/
structure TexPair where
  foreground : Nat
  background : Nat
  deriving Repr, DecidableEq

/-- Mesh object: its identity and the texture its material map uniform samples.
Mutating the uniform keeps the mesh identity (meshId) unchanged; a recreated mesh
would carry a fresh meshId. -/
structure Mesh where
  meshId : Nat
  mapTex : Nat
  deriving Repr, DecidableEq

/-- The GridManager-relevant host state: card list, generated texture pairs, the
9 tile groups and the two tile key to mesh maps. -/
structure GMState where
  cardData : List CardData
  cardTextures : List TexPair
  tileGroupsData : List TileGroupData
  foregroundMeshMap : List (String × Mesh)
  backgroundMeshMap : List (String × Mesh)
  deriving Repr, DecidableEq

/-- GridManager.getCardForegroundTexture: null on an empty texture list, otherwise
the pair at getCardTextureIndex (the index is taken modulo cardData.length and then
looked up in cardTextures, exactly as the code does). -/
def getCardForegroundTexture (cols rows : Nat) (s : GMState) (g t : Nat) :
    Option Nat :=
  if s.cardTextures.length = 0 then none
  else match getCardTextureIndex cols rows s.cardData g t with
    | none => none
    | some i => (s.cardTextures[i]?).map TexPair.foreground

/-- GridManager.getCardBackgroundTexture, as for the foreground getter. -/
def getCardBackgroundTexture (cols rows : Nat) (s : GMState) (g t : Nat) :
    Option Nat :=
  if s.cardTextures.length = 0 then none
  else match getCardTextureIndex cols rows s.cardData g t with
    | none => none
    | some i => (s.cardTextures[i]?).map TexPair.background

/-- One card's texture pair: the cached foreground generation followed by a fresh
background texture (generateBackgroundTexture is not cached). -/
def generateCardTexturePair (d : CardData) (c : TexCache) : TexPair × TexCache :=
  let f := generateForegroundTextureC d c
  let b := allocTexture f.2
  (⟨f.1, b.1⟩, b.2)

/-- The per-card generation loop joined by Promise.all, threading the cache. -/
def generateTexturesLoop : List CardData → TexCache → List TexPair × TexCache
  | [], c => ([], c)
  | d :: rest, c =>
      let p := generateCardTexturePair d c
      let tail := generateTexturesLoop rest p.2
      (p.1 :: tail.1, tail.2)

/-- GridManager.generateTexturesForCardData at the texture-object level: empty card
data yields an empty texture list, otherwise one pair per card. -/
def generateTexturesForCardData (cards : List CardData) (c : TexCache) :
    List TexPair × TexCache :=
  if cards.length = 0 then ([], c) else generateTexturesLoop cards c

lemma generateTexturesLoop_length (cards : List CardData) (c : TexCache) :
    (generateTexturesLoop cards c).1.length = cards.length := by
  induction cards generalizing c with
  | nil => rfl
  | cons d rest ih =>
      simp only [generateTexturesLoop, List.length_cons]
      rw [ih]

lemma generateTexturesForCardData_length (cards : List CardData) (c : TexCache) :
    (generateTexturesForCardData cards c).1.length = cards.length := by
  unfold generateTexturesForCardData
  split_ifs with h
  · simp [h]
  · exact generateTexturesLoop_length cards c

/-- Accumulator of createTiles: the two mesh maps under construction and the fresh
object counter (meshes and fallback canvas textures are freshly created objects). -/
structure CreateAcc where
  fgMap : List (String × Mesh)
  bgMap : List (String × Mesh)
  ctr : Nat
  deriving Repr, DecidableEq

/-- One tile slot of createTiles: create the background mesh (its material allocates
a fallback canvas texture when no background texture exists) and then the foreground
mesh, registering both under the tile key. -/
def createTilesStep (cols rows : Nat) (s : GMState) (acc : CreateAcc)
    (p : Nat × Nat) : CreateAcc :=
  let key := tileKey p.1 p.2
  let bgTexAlloc : Nat × Nat :=
    match getCardBackgroundTexture cols rows s p.1 p.2 with
    | some tex => (tex, acc.ctr)
    | none => (acc.ctr, acc.ctr + 1)
  let bgMesh : Mesh := ⟨bgTexAlloc.2, bgTexAlloc.1⟩
  let c2 := bgTexAlloc.2 + 1
  let fgTexAlloc : Nat × Nat :=
    match getCardForegroundTexture cols rows s p.1 p.2 with
    | some tex => (tex, c2)
    | none => (c2, c2 + 1)
  let fgMesh : Mesh := ⟨fgTexAlloc.2, fgTexAlloc.1⟩
  { fgMap := mapSet acc.fgMap key fgMesh,
    bgMap := mapSet acc.bgMap key bgMesh,
    ctr := fgTexAlloc.2 + 1 }

/-- GridManager.createTiles: iterate the groups and each group's rows and cols,
creating the two meshes of every tile slot. -/
def createTiles (cols rows : Nat) (s : GMState) (ctr : Nat) : GMState × Nat :=
  let res := (groupTilePairs s.tileGroupsData.length cols rows).foldl
    (createTilesStep cols rows s)
    ⟨s.foregroundMeshMap, s.backgroundMeshMap, ctr⟩
  ({ s with foregroundMeshMap := res.fgMap, backgroundMeshMap := res.bgMap },
    res.ctr)

/-- GridManager.initialize: position the 9 tile groups, generate all textures, then
create all tiles. -/
def gridManagerInitialize (cols rows : Nat) (gridW gridH : ℚ)
    (cards : List CardData) (cache : TexCache) (ctr : Nat) :
    GMState × TexCache × Nat :=
  let gen := generateTexturesForCardData cards cache
  let s0 : GMState :=
    { cardData := cards, cardTextures := gen.1,
      tileGroupsData := initializeTileGroups gridW gridH,
      foregroundMeshMap := [], backgroundMeshMap := [] }
  let ct := createTiles cols rows s0 ctr
  (ct.1, gen.2, ct.2)

/-- One foreground step of updateTileTextures: when the mesh under the tile key and
the newly indexed texture both exist, re-point the mesh's material map uniform at
that texture (a missing key or a null texture leaves the map unchanged). -/
def updateStepFG (cols rows : Nat) (s : GMState) (m : List (String × Mesh))
    (p : Nat × Nat) : List (String × Mesh) :=
  match getCardForegroundTexture cols rows s p.1 p.2 with
  | some tex => mapAdjust m (tileKey p.1 p.2) fun mh => { mh with mapTex := tex }
  | none => m

/-- One background step of updateTileTextures, as for the foreground step. -/
def updateStepBG (cols rows : Nat) (s : GMState) (m : List (String × Mesh))
    (p : Nat × Nat) : List (String × Mesh) :=
  match getCardBackgroundTexture cols rows s p.1 p.2 with
  | some tex => mapAdjust m (tileKey p.1 p.2) fun mh => { mh with mapTex := tex }
  | none => m

/-- GridManager.updateTileTextures: for every group and tile slot, look the meshes
up by tile key and re-point their material map uniform at the newly indexed texture.
The loop updates the two disjoint maps while its texture getters read only the card
and texture lists, which the loop never mutates, so it is rendered here as one fold
per map. -/
def updateTileTextures (cols rows : Nat) (s : GMState) : GMState :=
  let pairs := groupTilePairs s.tileGroupsData.length cols rows
  { s with
    foregroundMeshMap := pairs.foldl (updateStepFG cols rows s) s.foregroundMeshMap,
    backgroundMeshMap := pairs.foldl (updateStepBG cols rows s) s.backgroundMeshMap }

/-- GridManager.updateCardData: replace the card list, regenerate all textures, then
update the existing tile materials. -/
def updateCardData (cols rows : Nat) (s : GMState) (newCardData : List CardData)
    (cache : TexCache) : GMState × TexCache :=
  let gen := generateTexturesForCardData newCardData cache
  (updateTileTextures cols rows
    { s with cardData := newCardData, cardTextures := gen.1 }, gen.2)

/-- Diagnostic record of getGridStats; the memory estimate is kept in bytes (the
code formats totalTextures * 2048 * 2048 * 4 bytes as an MB string). -/
structure GridStats where
  totalGroups : Nat
  tilesPerGroup : Nat
  totalTiles : Nat
  totalTextures : Nat
  memoryBytes : Nat
  deriving Repr, DecidableEq

/-- GridManager.getGridStats. -/
def getGridStats (cols rows : Nat) (s : GMState) : GridStats :=
  let tilesPerGroup := cols * rows
  let totalTiles := s.tileGroupsData.length * tilesPerGroup
  let totalTextures := s.cardTextures.length * 2
  { totalGroups := s.tileGroupsData.length,
    tilesPerGroup := tilesPerGroup,
    totalTiles := totalTiles,
    totalTextures := totalTextures,
    memoryBytes := totalTextures * (2048 * 2048 * 4) }

/-! ## Fold lemmas for tile maps -/

section FoldLemmas

variable (texF : Nat × Nat → Option Nat)
variable (step : List (String × Mesh) → Nat × Nat → List (String × Mesh))

lemma update_fold_get_untouched
    (hsome : ∀ m p tex, texF p = some tex →
      step m p = mapAdjust m (tileKey p.1 p.2) fun mh => { mh with mapTex := tex })
    (hnone : ∀ m p, texF p = none → step m p = m) :
    ∀ (pairs : List (Nat × Nat)) (m : List (String × Mesh)) (k : String),
      (∀ p ∈ pairs, tileKey p.1 p.2 ≠ k) →
      mapGet (pairs.foldl step m) k = mapGet m k := by
  intro pairs
  induction pairs with
  | nil => intro m k _; rfl
  | cons q rest ih =>
      intro m k hk
      rw [List.foldl_cons, ih _ _ (fun p hp => hk p (List.mem_cons_of_mem q hp))]
      cases hq : texF q with
      | none => rw [hnone m q hq]
      | some tex =>
          rw [hsome m q tex hq]
          exact mapGet_adjust_ne _ _ _ _ (hk q (List.mem_cons_self q rest))

lemma update_fold_get
    (hsome : ∀ m p tex, texF p = some tex →
      step m p = mapAdjust m (tileKey p.1 p.2) fun mh => { mh with mapTex := tex })
    (hnone : ∀ m p, texF p = none → step m p = m) :
    ∀ (pairs : List (Nat × Nat)) (m : List (String × Mesh)) (g t tx : Nat),
      (g, t) ∈ pairs → pairs.Nodup → texF (g, t) = some tx →
      mapGet (pairs.foldl step m) (tileKey g t)
        = (mapGet m (tileKey g t)).map fun mh => { mh with mapTex := tx } := by
  intro pairs
  induction pairs with
  | nil => intro m g t tx hmem _ _; cases hmem
  | cons q rest ih =>
      intro m g t tx hmem hnd htex
      rw [List.foldl_cons]
      rcases List.mem_cons.mp hmem with heq | hmem'
      · have hnotin : (g, t) ∉ rest := heq ▸ (List.nodup_cons.mp hnd).1
        rw [update_fold_get_untouched texF step hsome hnone rest _ _ ?hkeys]
        · rw [← heq, hsome m (g, t) tx htex]
          exact mapGet_adjust_self _ _ _
        case hkeys =>
          intro p hp hkey
          obtain ⟨hg, ht⟩ := tileKey_inj hkey
          have hpgt : p = (g, t) := Prod.ext hg ht
          exact hnotin (hpgt ▸ hp)
      · have hq : tileKey q.1 q.2 ≠ tileKey g t := by
          intro hkey
          obtain ⟨hg, ht⟩ := tileKey_inj hkey
          have hqgt : q = (g, t) := Prod.ext hg ht
          exact (List.nodup_cons.mp hnd).1 (hqgt ▸ hmem')
        rw [ih _ g t tx hmem' (List.nodup_cons.mp hnd).2 htex]
        cases hq2 : texF q with
        | none => rw [hnone m q hq2]
        | some tex =>
            rw [hsome m q tex hq2, mapGet_adjust_ne _ _ _ _ hq]

lemma update_fold_proj
    (hsome : ∀ m p tex, texF p = some tex →
      step m p = mapAdjust m (tileKey p.1 p.2) fun mh => { mh with mapTex := tex })
    (hnone : ∀ m p, texF p = none → step m p = m) :
    ∀ (pairs : List (Nat × Nat)) (m : List (String × Mesh)),
      ((pairs.foldl step m).map fun p => (p.1, p.2.meshId))
        = m.map fun p => (p.1, p.2.meshId) := by
  intro pairs
  induction pairs with
  | nil => intro m; rfl
  | cons q rest ih =>
      intro m
      rw [List.foldl_cons, ih]
      cases hq : texF q with
      | none => rw [hnone m q hq]
      | some tex =>
          rw [hsome m q tex hq]
          exact mapAdjust_proj _ _ _ _ fun x => rfl

end FoldLemmas

lemma updateStepFG_spec (cols rows : Nat) (s : GMState) :
    (∀ m p tex, (fun p : Nat × Nat =>
        getCardForegroundTexture cols rows s p.1 p.2) p = some tex →
      updateStepFG cols rows s m p
        = mapAdjust m (tileKey p.1 p.2) fun mh => { mh with mapTex := tex })
    ∧ (∀ m p, (fun p : Nat × Nat =>
        getCardForegroundTexture cols rows s p.1 p.2) p = none →
      updateStepFG cols rows s m p = m) := by
  constructor
  · intro m p tex h
    simp only [updateStepFG, h]
  · intro m p h
    simp only [updateStepFG, h]

lemma updateStepBG_spec (cols rows : Nat) (s : GMState) :
    (∀ m p tex, (fun p : Nat × Nat =>
        getCardBackgroundTexture cols rows s p.1 p.2) p = some tex →
      updateStepBG cols rows s m p
        = mapAdjust m (tileKey p.1 p.2) fun mh => { mh with mapTex := tex })
    ∧ (∀ m p, (fun p : Nat × Nat =>
        getCardBackgroundTexture cols rows s p.1 p.2) p = none →
      updateStepBG cols rows s m p = m) := by
  constructor
  · intro m p tex h
    simp only [updateStepBG, h]
  · intro m p h
    simp only [updateStepBG, h]

section CreateFold

variable {σ : Type} (step : σ → Nat × Nat → σ) (proj : σ → List (String × Mesh))

lemma fold_preserves_isSome
    (hpres : ∀ st p k, (mapGet (proj st) k).isSome →
      (mapGet (proj (step st p)) k).isSome) :
    ∀ (pairs : List (Nat × Nat)) (st : σ) (k : String),
      (mapGet (proj st) k).isSome →
      (mapGet (proj (pairs.foldl step st)) k).isSome := by
  intro pairs
  induction pairs with
  | nil => intro st k h; exact h
  | cons q rest ih => intro st k h; exact ih (step st q) k (hpres st q k h)

lemma fold_sets_isSome
    (hpres : ∀ st p k, (mapGet (proj st) k).isSome →
      (mapGet (proj (step st p)) k).isSome)
    (hset : ∀ st p, (mapGet (proj (step st p)) (tileKey p.1 p.2)).isSome) :
    ∀ (pairs : List (Nat × Nat)) (st : σ) (p0 : Nat × Nat), p0 ∈ pairs →
      (mapGet (proj (pairs.foldl step st)) (tileKey p0.1 p0.2)).isSome := by
  intro pairs
  induction pairs with
  | nil => intro st p0 h; cases h
  | cons q rest ih =>
      intro st p0 hmem
      rcases List.mem_cons.mp hmem with heq | hmem'
      · subst heq
        exact fold_preserves_isSome step proj hpres rest (step st p0) _ (hset st p0)
      · exact ih (step st q) p0 hmem'

end CreateFold

lemma createTilesStep_fg_preserves (cols rows : Nat) (s : GMState) (acc : CreateAcc)
    (p : Nat × Nat) (k : String) (h : (mapGet acc.fgMap k).isSome) :
    (mapGet (createTilesStep cols rows s acc p).fgMap k).isSome :=
  mapGet_set_isSome_mono _ _ _ _ h

lemma createTilesStep_bg_preserves (cols rows : Nat) (s : GMState) (acc : CreateAcc)
    (p : Nat × Nat) (k : String) (h : (mapGet acc.bgMap k).isSome) :
    (mapGet (createTilesStep cols rows s acc p).bgMap k).isSome :=
  mapGet_set_isSome_mono _ _ _ _ h

lemma createTilesStep_fg_sets (cols rows : Nat) (s : GMState) (acc : CreateAcc)
    (p : Nat × Nat) :
    (mapGet (createTilesStep cols rows s acc p).fgMap (tileKey p.1 p.2)).isSome := by
  show (mapGet (mapSet acc.fgMap (tileKey p.1 p.2) _) (tileKey p.1 p.2)).isSome
  rw [mapGet_set_self]
  rfl

lemma createTilesStep_bg_sets (cols rows : Nat) (s : GMState) (acc : CreateAcc)
    (p : Nat × Nat) :
    (mapGet (createTilesStep cols rows s acc p).bgMap (tileKey p.1 p.2)).isSome := by
  show (mapGet (mapSet acc.bgMap (tileKey p.1 p.2) _) (tileKey p.1 p.2)).isSome
  rw [mapGet_set_self]
  rfl

lemma createTiles_isSome (cols rows : Nat) (s : GMState) (ctr : Nat) (g t : Nat)
    (hmem : (g, t) ∈ groupTilePairs s.tileGroupsData.length cols rows) :
    (mapGet (createTiles cols rows s ctr).1.foregroundMeshMap (tileKey g t)).isSome
    ∧ (mapGet (createTiles cols rows s ctr).1.backgroundMeshMap
        (tileKey g t)).isSome := by
  constructor
  · exact fold_sets_isSome (createTilesStep cols rows s) CreateAcc.fgMap
      (fun st p k h => createTilesStep_fg_preserves cols rows s st p k h)
      (fun st p => createTilesStep_fg_sets cols rows s st p) _ _ (g, t) hmem
  · exact fold_sets_isSome (createTilesStep cols rows s) CreateAcc.bgMap
      (fun st p k h => createTilesStep_bg_preserves cols rows s st p k h)
      (fun st p => createTilesStep_bg_sets cols rows s st p) _ _ (g, t) hmem

lemma initializeTileGroups_length (gridW gridH : ℚ) :
    (initializeTileGroups gridW gridH).length = 9 := rfl

lemma getCardForegroundTexture_eval (cols rows : Nat) (s : GMState) (g t : Nat)
    (hlen : s.cardTextures.length = s.cardData.length) (hne : s.cardData ≠ []) :
    ∃ tp, s.cardTextures[(g * (cols * rows) + t) % s.cardData.length]? = some tp
      ∧ getCardForegroundTexture cols rows s g t = some tp.foreground := by
  have hd0 : s.cardData.length ≠ 0 := fun h => hne (List.length_eq_zero.mp h)
  have ht0 : ¬ (s.cardTextures.length = 0) := by rw [hlen]; exact hd0
  have hidx : (g * (cols * rows) + t) % s.cardData.length < s.cardTextures.length := by
    rw [hlen]
    exact Nat.mod_lt _ (Nat.pos_of_ne_zero hd0)
  refine ⟨s.cardTextures.get ⟨(g * (cols * rows) + t) % s.cardData.length, hidx⟩, ?_, ?_⟩
  · exact List.getElem?_eq_getElem hidx
  · simp only [getCardForegroundTexture, getCardTextureIndex, if_neg ht0,
      if_neg hd0, List.getElem?_eq_getElem hidx, Option.map_some']
    rfl

lemma getCardBackgroundTexture_eval (cols rows : Nat) (s : GMState) (g t : Nat)
    (hlen : s.cardTextures.length = s.cardData.length) (hne : s.cardData ≠ []) :
    ∃ tp, s.cardTextures[(g * (cols * rows) + t) % s.cardData.length]? = some tp
      ∧ getCardBackgroundTexture cols rows s g t = some tp.background := by
  have hd0 : s.cardData.length ≠ 0 := fun h => hne (List.length_eq_zero.mp h)
  have ht0 : ¬ (s.cardTextures.length = 0) := by rw [hlen]; exact hd0
  have hidx : (g * (cols * rows) + t) % s.cardData.length < s.cardTextures.length := by
    rw [hlen]
    exact Nat.mod_lt _ (Nat.pos_of_ne_zero hd0)
  refine ⟨s.cardTextures.get ⟨(g * (cols * rows) + t) % s.cardData.length, hidx⟩, ?_, ?_⟩
  · exact List.getElem?_eq_getElem hidx
  · simp only [getCardBackgroundTexture, getCardTextureIndex, if_neg ht0,
      if_neg hd0, List.getElem?_eq_getElem hidx, Option.map_some']
    rfl

lemma updateTileTextures_spec (cols rows : Nat) (s2 : GMState)
    (hlen : s2.cardTextures.length = s2.cardData.length) (hne : s2.cardData ≠ []) :
    ((updateTileTextures cols rows s2).foregroundMeshMap.map
        (fun p => (p.1, p.2.meshId))
      = s2.foregroundMeshMap.map fun p => (p.1, p.2.meshId))
    ∧ ((updateTileTextures cols rows s2).backgroundMeshMap.map
        (fun p => (p.1, p.2.meshId))
      = s2.backgroundMeshMap.map fun p => (p.1, p.2.meshId))
    ∧ (∀ g t : Nat, g < s2.tileGroupsData.length → t < cols * rows →
        (mapGet s2.foregroundMeshMap (tileKey g t)).isSome →
        (mapGet s2.backgroundMeshMap (tileKey g t)).isSome →
        (∃ mh tp,
          mapGet (updateTileTextures cols rows s2).foregroundMeshMap (tileKey g t)
            = some mh
          ∧ s2.cardTextures[(g * (cols * rows) + t) % s2.cardData.length]? = some tp
          ∧ mh.mapTex = tp.foreground)
        ∧ (∃ mh tp,
          mapGet (updateTileTextures cols rows s2).backgroundMeshMap (tileKey g t)
            = some mh
          ∧ s2.cardTextures[(g * (cols * rows) + t) % s2.cardData.length]? = some tp
          ∧ mh.mapTex = tp.background)) := by
  have hfgmap : (updateTileTextures cols rows s2).foregroundMeshMap
      = (groupTilePairs s2.tileGroupsData.length cols rows).foldl
          (updateStepFG cols rows s2) s2.foregroundMeshMap := rfl
  have hbgmap : (updateTileTextures cols rows s2).backgroundMeshMap
      = (groupTilePairs s2.tileGroupsData.length cols rows).foldl
          (updateStepBG cols rows s2) s2.backgroundMeshMap := rfl
  refine ⟨?_, ?_, ?_⟩
  · rw [hfgmap]
    exact update_fold_proj _ _ (updateStepFG_spec cols rows s2).1
      (updateStepFG_spec cols rows s2).2 _ _
  · rw [hbgmap]
    exact update_fold_proj _ _ (updateStepBG_spec cols rows s2).1
      (updateStepBG_spec cols rows s2).2 _ _
  · intro g t hg ht hfgsome hbgsome
    have hmem : (g, t) ∈ groupTilePairs s2.tileGroupsData.length cols rows :=
      mem_groupTilePairs.mpr ⟨hg, by rw [Nat.mul_comm rows cols]; exact ht⟩
    have hnd := groupTilePairs_nodup s2.tileGroupsData.length cols rows
    constructor
    · obtain ⟨tp, htp, htex⟩ := getCardForegroundTexture_eval cols rows s2 g t hlen hne
      obtain ⟨mh0, hmh0⟩ := Option.isSome_iff_exists.mp hfgsome
      refine ⟨{ mh0 with mapTex := tp.foreground }, tp, ?_, htp, rfl⟩
      rw [hfgmap, update_fold_get _ _ (updateStepFG_spec cols rows s2).1
        (updateStepFG_spec cols rows s2).2 _ _ g t tp.foreground hmem hnd htex,
        hmh0, Option.map_some']
    · obtain ⟨tp, htp, htex⟩ := getCardBackgroundTexture_eval cols rows s2 g t hlen hne
      obtain ⟨mh0, hmh0⟩ := Option.isSome_iff_exists.mp hbgsome
      refine ⟨{ mh0 with mapTex := tp.background }, tp, ?_, htp, rfl⟩
      rw [hbgmap, update_fold_get _ _ (updateStepBG_spec cols rows s2).1
        (updateStepBG_spec cols rows s2).2 _ _ g t tp.background hmem hnd htex,
        hmh0, Option.map_some']

/-- C6: for every initialized grid and every nonempty new card list,
updateCardData regenerates the texture list and re-points every existing tile's
material map uniform at the texture selected by the new modulo mapping, while
leaving every mesh in both mesh maps in place (same keys, same mesh identities, no
mesh recreated or replaced); afterwards getGridStats reports totalTextures =
2 * newCards.length. -/
theorem updateCardData_rebinds (cols rows : Nat) (gridW gridH : ℚ)
    (cards newCards : List CardData) (cache0 cache1 : TexCache) (c0 : Nat)
    (hne : newCards ≠ []) :
    let s := (gridManagerInitialize cols rows gridW gridH cards cache0 c0).1
    let r := (updateCardData cols rows s newCards cache1).1
    let newTex := (generateTexturesForCardData newCards cache1).1
    (r.foregroundMeshMap.map (fun p => (p.1, p.2.meshId))
      = s.foregroundMeshMap.map fun p => (p.1, p.2.meshId))
    ∧ (r.backgroundMeshMap.map (fun p => (p.1, p.2.meshId))
      = s.backgroundMeshMap.map fun p => (p.1, p.2.meshId))
    ∧ (getGridStats cols rows r).totalGroups = 9
    ∧ (getGridStats cols rows r).totalTiles = 9 * (cols * rows)
    ∧ (getGridStats cols rows r).totalTextures = 2 * newCards.length
    ∧ (∀ g t : Nat, g < 9 → t < cols * rows →
        (∃ mh tp, mapGet r.foregroundMeshMap (tileKey g t) = some mh
          ∧ newTex[(g * (cols * rows) + t) % newCards.length]? = some tp
          ∧ mh.mapTex = tp.foreground)
        ∧ (∃ mh tp, mapGet r.backgroundMeshMap (tileKey g t) = some mh
          ∧ newTex[(g * (cols * rows) + t) % newCards.length]? = some tp
          ∧ mh.mapTex = tp.background)) := by
  intro s r newTex
  have hlen : ({ s with cardData := newCards, cardTextures := newTex } :
      GMState).cardTextures.length
      = ({ s with cardData := newCards, cardTextures := newTex } :
        GMState).cardData.length := by
    show newTex.length = newCards.length
    exact generateTexturesForCardData_length newCards cache1
  have hneq : ({ s with cardData := newCards, cardTextures := newTex } :
      GMState).cardData ≠ [] := hne
  obtain ⟨hproj_fg, hproj_bg, hbind⟩ := updateTileTextures_spec cols rows
    { s with cardData := newCards, cardTextures := newTex } hlen hneq
  refine ⟨hproj_fg, hproj_bg, rfl, rfl, ?_, ?_⟩
  · show newTex.length * 2 = 2 * newCards.length
    rw [generateTexturesForCardData_length newCards cache1, Nat.mul_comm]
  · intro g t hg ht
    have hmem0 : (g, t) ∈ groupTilePairs 9 cols rows :=
      mem_groupTilePairs.mpr ⟨hg, by rw [Nat.mul_comm rows cols]; exact ht⟩
    have hcreate := createTiles_isSome cols rows
      { cardData := cards,
        cardTextures := (generateTexturesForCardData cards cache0).1,
        tileGroupsData := initializeTileGroups gridW gridH,
        foregroundMeshMap := [], backgroundMeshMap := [] } c0 g t hmem0
    exact hbind g t hg ht hcreate.1 hcreate.2

/-- Closed instance of updateCardData_rebinds: a 1 by 1 grid initialized with no
cards, then updated to one card. -/
theorem updateCardData_rebinds_witness :
    let s := (gridManagerInitialize 1 1 0 0 [] ⟨[], 0⟩ 0).1
    let r := (updateCardData 1 1 s [defaultCard "y"] ⟨[], 0⟩).1
    let newTex := (generateTexturesForCardData [defaultCard "y"] ⟨[], 0⟩).1
    (r.foregroundMeshMap.map (fun p => (p.1, p.2.meshId))
      = s.foregroundMeshMap.map fun p => (p.1, p.2.meshId))
    ∧ (r.backgroundMeshMap.map (fun p => (p.1, p.2.meshId))
      = s.backgroundMeshMap.map fun p => (p.1, p.2.meshId))
    ∧ (getGridStats 1 1 r).totalGroups = 9
    ∧ (getGridStats 1 1 r).totalTiles = 9 * (1 * 1)
    ∧ (getGridStats 1 1 r).totalTextures = 2 * [defaultCard "y"].length
    ∧ (∀ g t : Nat, g < 9 → t < 1 * 1 →
        (∃ mh tp, mapGet r.foregroundMeshMap (tileKey g t) = some mh
          ∧ newTex[(g * (1 * 1) + t) % [defaultCard "y"].length]? = some tp
          ∧ mh.mapTex = tp.foreground)
        ∧ (∃ mh tp, mapGet r.backgroundMeshMap (tileKey g t) = some mh
          ∧ newTex[(g * (1 * 1) + t) % [defaultCard "y"].length]? = some tp
          ∧ mh.mapTex = tp.background)) := by
  exact updateCardData_rebinds 1 1 0 0 [] [defaultCard "y"] ⟨[], 0⟩ ⟨[], 0⟩ 0
    (by decide)

/-- Five concrete card records with distinct titles and hence distinct cache keys. -/
def sampleCards : List CardData :=
  ["p0", "p1", "p2", "p3", "p4"].map fun t =>
    { title := t, badge := "", description := "", tags := [], date := "" }

/-- C7: initialization with 5 card records and 3 by 3 tiles per group creates
exactly 81 foreground and 81 background meshes (one pair per slot across the 9
groups), exactly 5 texture pairs with 5 distinct cached foreground textures; and in
general getGridStats reports totalGroups = 9, totalTiles = 9 * GRID_COLS * GRID_ROWS
and totalTextures = 2 * cardCount. -/
theorem gridInit_counts :
    (∀ (cols rows : Nat) (gridW gridH : ℚ) (cards : List CardData)
        (cache : TexCache) (c0 : Nat),
      getGridStats cols rows
          (gridManagerInitialize cols rows gridW gridH cards cache c0).1
        = { totalGroups := 9, tilesPerGroup := cols * rows,
            totalTiles := 9 * (cols * rows), totalTextures := 2 * cards.length,
            memoryBytes := 2 * cards.length * (2048 * 2048 * 4) })
    ∧ (gridManagerInitialize 3 3 0 0 sampleCards ⟨[], 0⟩
        0).1.foregroundMeshMap.length = 81
    ∧ (gridManagerInitialize 3 3 0 0 sampleCards ⟨[], 0⟩
        0).1.backgroundMeshMap.length = 81
    ∧ (gridManagerInitialize 3 3 0 0 sampleCards ⟨[], 0⟩
        0).1.cardTextures.length = 5
    ∧ ((gridManagerInitialize 3 3 0 0 sampleCards ⟨[], 0⟩
        0).1.cardTextures.map TexPair.foreground).Nodup
    ∧ (gridManagerInitialize 3 3 0 0 sampleCards ⟨[], 0⟩
        0).2.1.entries.length = 5 := by
  refine ⟨?_, by decide, by decide, by decide, by decide, by decide⟩
  intro cols rows gridW gridH cards cache c0
  have hlen : (gridManagerInitialize cols rows gridW gridH cards cache
      c0).1.cardTextures.length = cards.length :=
    generateTexturesForCardData_length cards cache
  have h9 : (gridManagerInitialize cols rows gridW gridH cards cache
      c0).1.tileGroupsData.length = 9 := rfl
  simp only [getGridStats]
  rw [h9, hlen, Nat.mul_comm cards.length 2]

end KbmDesign
